import Mathlib

/-!
Verification development for the Paranoid Scientist runtime contract engine
(`paranoid/` Python package).  The Python sources are shallowly embedded:

* Python numeric values (int/float, including `inf`, `-inf`, `nan`) are
  modelled by `PyFloat`/`PyVal`, with exact rational arithmetic standing in
  for IEEE floats.  Every comparison appearing in the embedded code is
  robust to this idealisation at the concrete inputs used in theorems.
* the `Type` hierarchy of `paranoid/types/` becomes the inductive `TypeV`
  with executable `typeTest` (True = the Python `test` returns without an
  `AssertionError`) and `typeGenerate` (the result of `list(t.generate())`,
  or the exception that call raises).
* the decorator pipeline of `paranoid/decorators.py` becomes explicit
  state-passing functions over association-list environments.
-/

/-- Decidable equality for `Except` results, used to evaluate the
embedded functions at concrete inputs. -/
instance {ε α : Type} [DecidableEq ε] [DecidableEq α] : DecidableEq (Except ε α) :=
  fun x y =>
    match x, y with
    | .ok v, .ok w => if h : v = w then .isTrue (by simp [h]) else .isFalse (by simp [h])
    | .error v, .error w =>
        if h : v = w then .isTrue (by simp [h]) else .isFalse (by simp [h])
    | .ok _, .error _ => .isFalse (by simp)
    | .error _, .ok _ => .isFalse (by simp)

/-- Python exception kinds relevant to the embedded code. -/
inductive PyExn where
  | assertionError
  | typeError
  | valueError
  | nameError
  | syntaxError
  | invalidTypeError
  | noGeneratorError
  | entryConditionsError
  | exitConditionsError
  | argumentTypeError
  | returnTypeError
  | testCaseTimeoutError
  | internalError
  | verifyError
deriving DecidableEq, Repr

/-- A Python float: a finite value (idealised as a rational), `inf`, `-inf`
or `nan`.  Python ints embed into this domain for comparisons. -/
inductive PyFloat where
  | finite (q : ℚ)
  | inf
  | ninf
  | nan
deriving DecidableEq, Repr

/-- `math.isnan`. -/
def PyFloat.isnan : PyFloat → Bool
  | .nan => true
  | _ => false

/-- `math.isinf`. -/
def PyFloat.isinf : PyFloat → Bool
  | .inf => true
  | .ninf => true
  | _ => false

/-- `math.isfinite`. -/
def PyFloat.isfinite : PyFloat → Bool
  | .finite _ => true
  | _ => false

/-- Python `<=` on numbers: any comparison involving `nan` is false. -/
def PyFloat.le : PyFloat → PyFloat → Bool
  | .nan, _ => false
  | _, .nan => false
  | .ninf, _ => true
  | _, .inf => true
  | .inf, _ => false
  | _, .ninf => false
  | .finite a, .finite b => decide (a ≤ b)

/-- Python `<` on numbers: any comparison involving `nan` is false. -/
def PyFloat.lt : PyFloat → PyFloat → Bool
  | .nan, _ => false
  | _, .nan => false
  | .inf, _ => false
  | _, .ninf => false
  | .ninf, _ => true
  | _, .inf => true
  | .finite a, .finite b => decide (a < b)

/-- Python `==` on numbers: `nan` is not equal to anything, infinities
compare by sign, finite values by value. -/
def PyFloat.eq : PyFloat → PyFloat → Bool
  | .nan, _ => false
  | _, .nan => false
  | .inf, .inf => true
  | .ninf, .ninf => true
  | .finite a, .finite b => decide (a = b)
  | _, _ => false

/-- Python `+` on numbers (the cases exercised by the embedded code; the
source only adds finite quantities, both operands guarded by `isinf`). -/
def PyFloat.add : PyFloat → PyFloat → PyFloat
  | .nan, _ => .nan
  | _, .nan => .nan
  | .inf, .ninf => .nan
  | .ninf, .inf => .nan
  | .inf, _ => .inf
  | _, .inf => .inf
  | .ninf, _ => .ninf
  | _, .ninf => .ninf
  | .finite a, .finite b => .finite (a + b)

/-- Python binary `-` on numbers. -/
def PyFloat.sub : PyFloat → PyFloat → PyFloat
  | .nan, _ => .nan
  | _, .nan => .nan
  | .inf, .inf => .nan
  | .ninf, .ninf => .nan
  | .inf, _ => .inf
  | _, .inf => .ninf
  | .ninf, _ => .ninf
  | _, .ninf => .inf
  | .finite a, .finite b => .finite (a - b)

/-- Python `*` on numbers (finite cases; the source multiplies finite
quantities only). -/
def PyFloat.mul : PyFloat → PyFloat → PyFloat
  | .nan, _ => .nan
  | _, .nan => .nan
  | .finite a, .finite b => .finite (a * b)
  | _, _ => .nan

/-- Whether `v // 1 == v`, the integrality check of `Integer.test`. -/
def PyFloat.isIntegral : PyFloat → Bool
  | .finite q => decide (q.den = 1)
  | _ => false

/-- A Python value flowing through the contract engine. -/
inductive PyVal where
  | vint (n : ℤ)
  | vbool (b : Bool)
  | vfloat (f : PyFloat)
  | vstr (s : String)
  | vnone
deriving DecidableEq, Repr

/-- `isinstance(v, (int, float))`; note Python `bool` is a subclass of
`int`, so booleans are numeric instances. -/
def PyVal.isNumericInstance : PyVal → Bool
  | .vint _ => true
  | .vbool _ => true
  | .vfloat _ => true
  | _ => false

/-- The numeric magnitude of a value, where Python would use one in a
comparison (`True == 1`, `False == 0`). -/
def PyVal.toFloat : PyVal → PyFloat
  | .vint n => .finite (n : ℚ)
  | .vbool b => .finite (if b then 1 else 0)
  | .vfloat f => f
  | _ => .nan

/-- Python `==` between values: numbers compare by value across int,
bool and float; strings compare as strings; `None` only equals `None`. -/
def PyVal.eq (a b : PyVal) : Bool :=
  if a.isNumericInstance && b.isNumericInstance then
    PyFloat.eq a.toFloat b.toFloat
  else
    match a, b with
    | .vstr s, .vstr t => decide (s = t)
    | .vnone, .vnone => true
    | _, _ => false

/-- Python truthiness. -/
def PyVal.truthy : PyVal → Bool
  | .vint n => decide (n ≠ 0)
  | .vbool b => b
  | .vfloat (.finite q) => decide (q ≠ 0)
  | .vfloat _ => true
  | .vstr s => decide (s ≠ "")
  | .vnone => false

/-- Tag for a plain Python class wrapped by `Generic` (`types/base.py`).
Our value universe contains only primitives, so instance checks for user
classes are false. -/
inductive PyClassTag where
  | intCls
  | strCls
  | userCls (s : String)
deriving DecidableEq, Repr

/-- The `Type` hierarchy of `paranoid/types/`: each constructor is one of
the built-in `Type` subclasses the claims mention, with its constructor
parameters. -/
inductive TypeV where
  | numeric
  | extendedReal
  | number
  | integer
  | natural0
  | natural1
  | range (low high : PyFloat)
  | rangeClosedOpen (low high : PyFloat)
  | rangeOpenClosed (low high : PyFloat)
  | rangeOpen (low high : PyFloat)
  | positive0
  | positive
  | boolean
  | nothing
  | constant (v : PyVal)
  | notT (t : TypeV)
  | function
  | generic (c : PyClassTag)
  | positionalArguments
  | keywordArguments
deriving DecidableEq, Repr

/-- `Numeric.test` (`types/numeric.py`): `isinstance(v, NUMERIC_TYPES)`. -/
def numericTest (v : PyVal) : Bool := v.isNumericInstance

/-- `ExtendedReal.test`: numeric and not `nan`. -/
def extendedRealTest (v : PyVal) : Bool :=
  v.isNumericInstance && !(PyFloat.isnan v.toFloat)

/-- `Number.test`: numeric and finite. -/
def numberTest (v : PyVal) : Bool :=
  v.isNumericInstance && PyFloat.isfinite v.toFloat

/-- `Integer.test`: numeric, finite, and `v // 1 == v`. -/
def integerTest (v : PyVal) : Bool :=
  v.isNumericInstance && !(PyFloat.isinf v.toFloat) && !(PyFloat.isnan v.toFloat)
    && PyFloat.isIntegral v.toFloat

/-- `test` for each `Type` subclass, following each Python class's `test`
with its `super().test(v)` chain; `true` means the Python call returns
without raising `AssertionError`.  `PositionalArguments.test` and
`KeywordArguments.test` assert `isinstance(v, tuple)` and
`isinstance(v, dict)` respectively; the modelled value universe holds
only primitives (no tuples or dicts), so no modelled value passes them,
just as no modelled value is an instance of a user class. -/
def typeTest : TypeV → PyVal → Bool
  | .numeric, v => numericTest v
  | .extendedReal, v => extendedRealTest v
  | .number, v => numberTest v
  | .integer, v => integerTest v
  | .natural0, v => integerTest v && PyFloat.le (.finite 0) v.toFloat
  | .natural1, v => integerTest v && PyFloat.lt (.finite 0) v.toFloat
  | .range l h, v => numberTest v && PyFloat.le l v.toFloat && PyFloat.le v.toFloat h
  | .rangeClosedOpen l h, v =>
      numberTest v && PyFloat.le l v.toFloat && PyFloat.le v.toFloat h
        && !(PyFloat.eq v.toFloat h)
  | .rangeOpenClosed l h, v =>
      numberTest v && PyFloat.le l v.toFloat && PyFloat.le v.toFloat h
        && !(PyFloat.eq v.toFloat l)
  | .rangeOpen l h, v =>
      numberTest v && PyFloat.le l v.toFloat && PyFloat.le v.toFloat h
        && !(PyFloat.eq v.toFloat l) && !(PyFloat.eq v.toFloat h)
  | .positive0, v => numberTest v && PyFloat.le (.finite 0) v.toFloat
  | .positive, v => numberTest v && PyFloat.lt (.finite 0) v.toFloat
  | .boolean, v => PyVal.eq v (.vbool true) || PyVal.eq v (.vbool false)
  | .nothing, v => decide (v = .vnone)
  | .constant c, v => PyVal.eq c v
  | .notT t, v => !(typeTest t v)
  | .function, _ => false
  | .generic .intCls, v =>
      match v with
      | .vint _ => true
      | .vbool _ => true
      | _ => false
  | .generic .strCls, v =>
      match v with
      | .vstr _ => true
      | _ => false
  | .generic (.userCls _), _ => false
  | .positionalArguments, _ => false
  | .keywordArguments, _ => false

/-- The assertions of `Range.__init__`: bounds are `ExtendedReal`
(numeric, not `nan`), `low < high`, and not both infinite. -/
def rangeValidParams (l h : PyFloat) : Bool :=
  !(PyFloat.isnan l) && !(PyFloat.isnan h) && PyFloat.lt l h
    && !(PyFloat.isinf l && PyFloat.isinf h)

/-- `EPSILON` in `Range.generate`. -/
def rangeEPSILON : PyFloat := .finite (1 / 100000)

/-- `Range.generate` (`types/numeric.py` lines 149-162), as the list a
caller collects from the generator. -/
def rangeGenerate (l h : PyFloat) : List PyVal :=
  (if !(PyFloat.isinf l) then
    [.vfloat l, .vfloat (PyFloat.add l rangeEPSILON)] else [])
  ++ (if !(PyFloat.isinf h) then
    [.vfloat h, .vfloat (PyFloat.sub h rangeEPSILON)] else [])
  ++ (if !(PyFloat.isinf l) && !(PyFloat.isinf h) then
    [.vfloat (PyFloat.add l (PyFloat.mul (PyFloat.sub h l) (.finite (1/4)))),
     .vfloat (PyFloat.add l (PyFloat.mul (PyFloat.sub h l) (.finite (1/2)))),
     .vfloat (PyFloat.add l (PyFloat.mul (PyFloat.sub h l) (.finite (3/4))))]
    else [])

/-- `list(t.generate())` for each built-in type, or the exception that
call raises.  `Not.generate` has body `pass`, so it returns `None` and
`list(None)` raises `TypeError`; `Function.generate` raises
`NoGeneratorError`; `Generic` without a `_generate` hook raises
`NoGeneratorError`.  `PositionalArguments.generate` and
`KeywordArguments.generate` each yield exactly one value — the empty
tuple and the empty dict — which lie outside the modelled primitive
value universe, so their collected lists are empty here. -/
def typeGenerate : TypeV → Except PyExn (List PyVal)
  | .numeric => .ok [.vfloat .inf, .vfloat .ninf, .vfloat .nan, .vint 0, .vint 1,
      .vint (-1), .vfloat (.finite (3141/1000)), .vfloat (.finite (1/10^10)),
      .vfloat (.finite (10^10))]
  | .extendedReal => .ok [.vfloat .inf, .vfloat .ninf, .vint 0, .vint 1,
      .vint (-1), .vfloat (.finite (3141/1000)), .vfloat (.finite (1/10^10)),
      .vfloat (.finite (10^10))]
  | .number => .ok [.vint 0, .vint 1, .vint (-1), .vfloat (.finite (3141/1000)),
      .vfloat (.finite (1/10^10)), .vfloat (.finite (10^10))]
  | .integer => .ok [.vint (-100), .vint (-1), .vint 0, .vint 1, .vint 100]
  | .natural0 => .ok [.vint 0, .vint 1, .vint 10, .vint 100]
  | .natural1 => .ok [.vint 1, .vint 2, .vint 10, .vint 100]
  | .range l h => .ok (rangeGenerate l h)
  | .rangeClosedOpen l h =>
      .ok ((rangeGenerate l h).filter (fun v => !(PyFloat.eq v.toFloat h)))
  | .rangeOpenClosed l h =>
      .ok ((rangeGenerate l h).filter (fun v => !(PyFloat.eq v.toFloat l)))
  | .rangeOpen l h =>
      .ok ((rangeGenerate l h).filter
        (fun v => !(PyFloat.eq v.toFloat l) && !(PyFloat.eq v.toFloat h)))
  | .positive0 => .ok [.vfloat (.finite (43445/10000)), .vint 1, .vint 10, .vint 0]
  | .positive => .ok [.vfloat (.finite (43445/10000)), .vint 1, .vint 10]
  | .boolean => .ok [.vbool true, .vbool false]
  | .nothing => .ok [.vnone]
  | .constant c => .ok [c]
  | .notT _ => .error .typeError
  | .function => .error .noGeneratorError
  | .generic _ => .error .noGeneratorError
  | .positionalArguments => .ok []
  | .keywordArguments => .ok []

/-! ### Environments (Python dicts of bound names) -/

/-- A Python dict with string keys, as used for bound-argument maps,
namespaces and cache records.  Keys are unique in every dict the embedded
code builds. -/
abbrev Env := List (String × PyVal)

/-- Dict lookup. -/
def envLookup (e : Env) (k : String) : Option PyVal :=
  match e with
  | [] => none
  | (k1, v) :: rest => if k1 = k then some v else envLookup rest k

/-- Keys of a dict. -/
def envKeys (e : Env) : List String := e.map (fun kv => kv.1)

/-- `base.copy(); base.update(upd)`: entries of `upd` overwrite entries of
`base` with the same key. -/
def envUpdate (base upd : Env) : Env :=
  (base.filter (fun kv => !(envKeys upd).contains kv.1)) ++ upd

/-- `{k + sfx : v for k, v in e.items()}`. -/
def envSuffix (sfx : String) (e : Env) : Env :=
  e.map (fun kv => (kv.1 ++ sfx, kv.2))

/-- Insert into a sorted list of strings (code-point order, as Python's
`sorted` uses). -/
def insertStr (s : String) : List String → List String
  | [] => [s]
  | t :: ts => if (compare s t).isLE then s :: t :: ts else t :: insertStr s ts

/-- `sorted(...)` on a list of strings. -/
def sortStrings : List String → List String
  | [] => []
  | s :: ss => insertStr s (sortStrings ss)

/-! ### Settings (`paranoid/settings.py`) -/

/-- A value stored in the settings map.  The `namespace` dict is
abstracted to whether all its keys are strings, which is all its
validator inspects. -/
inductive SettingVal where
  | sbool (b : Bool)
  | sint (n : ℤ)
  | sfloat (f : PyFloat)
  | sstr (s : String)
  | sdict (allStrKeys : Bool)
  | snone
deriving DecidableEq, Repr

/-- Python `==` between a settings value and a value from `[True, False]`
(numeric equality: `1 == True`, `0 == False`, `1.0 == True`). -/
def settingEqBool (v : SettingVal) (b : Bool) : Bool :=
  match v with
  | .sbool b1 => b1 == b
  | .sint n => decide (n = (if b then 1 else 0))
  | .sfloat (.finite q) => decide (q = (if b then 1 else 0))
  | _ => false

/-- `Settings.__global_setting_values`, one field per setting. -/
structure GlobalSettings where
  enabled : SettingVal
  max_runtime : SettingVal
  max_cache : SettingVal
  namespaceV : SettingVal
deriving DecidableEq, Repr

/-- The defaults in `settings.py`. -/
def defaultGlobalSettings : GlobalSettings :=
  ⟨.sbool true, .sint 2, .sint 2, .sdict true⟩

/-- The recognised setting names (keys of the global settings dict). -/
def settingNames : List String := ["enabled", "max_runtime", "max_cache", "namespace"]

/-- `Settings.__validate_settings`: the per-setting validity functions.
`enabled`: `x in [True, False]` (Python membership uses `==`, so `1` and
`1.0` pass); `max_runtime`: `type(x) in [int, float] and x >= 0` (a bool
fails the exact-type check); `max_cache`: `isinstance(x, int) and x >= 0`
(a bool is an `int` instance, so it passes); `namespace`: a dict with all
string keys. -/
def validateSetting (name : String) (v : SettingVal) : Bool :=
  if name = "enabled" then settingEqBool v true || settingEqBool v false
  else if name = "max_runtime" then
    match v with
    | .sint n => decide (n ≥ 0)
    | .sfloat f => PyFloat.le (.finite 0) f
    | _ => false
  else if name = "max_cache" then
    match v with
    | .sint n => decide (n ≥ 0)
    | .sbool _ => true
    | _ => false
  else if name = "namespace" then
    match v with
    | .sdict allStr => allStr
    | _ => false
  else true

/-- A function's `__function_settings__` dict (`None` when the attribute
was never created). -/
abbrev LocalSettings := List (String × SettingVal)

/-- Lookup in a string-keyed settings dict. -/
def settingsLookup (m : LocalSettings) (k : String) : Option SettingVal :=
  match m with
  | [] => none
  | (k1, v) :: rest => if k1 = k then some v else settingsLookup rest k

/-- Store into a string-keyed settings dict. -/
def settingsInsert (m : LocalSettings) (k : String) (v : SettingVal) : LocalSettings :=
  match m with
  | [] => [(k, v)]
  | (k1, v1) :: rest =>
      if k1 = k then (k1, v) :: rest else (k1, v1) :: settingsInsert rest k v

/-- Read a field of the global settings dict by name
(`__global_setting_values[name]`; `none` models a `KeyError`). -/
def globalLookup (g : GlobalSettings) (name : String) : Option SettingVal :=
  if name = "enabled" then some g.enabled
  else if name = "max_runtime" then some g.max_runtime
  else if name = "max_cache" then some g.max_cache
  else if name = "namespace" then some g.namespaceV
  else none

/-- Write a field of the global settings dict by name. -/
def globalStore (g : GlobalSettings) (name : String) (v : SettingVal) : GlobalSettings :=
  if name = "enabled" then { g with enabled := v }
  else if name = "max_runtime" then { g with max_runtime := v }
  else if name = "max_cache" then { g with max_cache := v }
  else if name = "namespace" then { g with namespaceV := v }
  else g

/-- The error raised by `Settings._set`. -/
inductive SettingsErr where
  | nameError
  | valueError
deriving DecidableEq, Repr

/-- `Settings._set(name, value, function)` (`settings.py` lines 71-107),
acting on the global map and the optional per-function settings dict.
The returned state equals the input state whenever an error is reported,
mirroring that the Python code raises before any store happens. -/
def Settings_set (name : String) (v : SettingVal) (fn : Option LocalSettings)
    (g : GlobalSettings) :
    (GlobalSettings × Option LocalSettings) × Option SettingsErr :=
  if !(settingNames.contains name) then ((g, fn), some .nameError)
  else if !(validateSetting name v) then ((g, fn), some .valueError)
  else
    match fn with
    | some loc => ((g, some (settingsInsert loc name v)), none)
    | none => ((globalStore g name v, none), none)

/-- `Settings.get(name, function)` (`settings.py` lines 108-120): the
function-local dict, when present and containing the name, shadows the
global value. -/
def Settings_get (name : String) (fn : Option LocalSettings)
    (g : GlobalSettings) : Option SettingVal :=
  match fn with
  | some loc =>
      match settingsLookup loc name with
      | some v => some v
      | none => globalLookup g name
  | none => globalLookup g name

/-- The integer a stored `max_cache` value denotes in the comparison
`len(exec_cache) > Settings.get("max_cache", ...)` (validated values are
non-negative ints or bools). -/
def settingToNat : SettingVal → ℕ
  | .sint n => n.toNat
  | .sbool b => if b then 1 else 0
  | _ => 0

/-! ### The call-interception pipeline (`paranoid/decorators.py`) -/

/-- A compiled condition expression: evaluating it against a globals dict
either produces a value or raises.  This models the result of
`eval(compiled, full_globals, {})` on a `compile(condition, '', 'eval')`
object. -/
abbrev CondFn := Env → Except PyExn PyVal

/-- The function property bag (`__verify__` attribute): `none` in a field
models `has_fun_prop` being false for that key.  `requires` entries are
(compiled expression, source text); `ensures` entries additionally carry
the backtick depth. -/
structure FunProps where
  argtypes : Option (List (String × TypeV))
  returntype : Option TypeV
  requiresC : Option (List (CondFn × String))
  ensuresC : Option (List (ℕ × CondFn × String))

/-- A function with no paranoid annotations. -/
def emptyProps : FunProps := ⟨none, none, none, none⟩

/-- `_check_accepts(func, argvals)` (`decorators.py` lines 21-31):
`none` = no error raised. -/
def checkAccepts (props : FunProps) (argvals : Env) : Option PyExn :=
  match props.argtypes with
  | none => none
  | some ats =>
      if sortStrings (ats.map (fun kv => kv.1)) ≠ sortStrings (envKeys argvals)
      then some .argumentTypeError
      else if ats.all (fun kv =>
          typeTest kv.2 ((envLookup argvals kv.1).getD .vnone))
      then none
      else some .argumentTypeError

/-- The loop body of `_check_requires`: each requirement is evaluated
against the merged namespace/arguments dict; a false result raises
`EntryConditionsError`, and any exception raised by the evaluation is
re-raised as `EntryConditionsError` (an `EntryConditionsError` raised by
the evaluation itself is re-raised unchanged, which is the same
exception type). -/
def requiresLoop (full : Env) : List (CondFn × String) → Option PyExn
  | [] => none
  | (c, _) :: rest =>
      match c full with
      | .error _ => some .entryConditionsError
      | .ok v => if v.truthy then requiresLoop full rest
                 else some .entryConditionsError

/-- `_check_requires(func, argvals)` (`decorators.py` lines 33-49).
`ns` is the global `namespace` setting (the source reads it with
`Settings.get("namespace")`, with no function-local override). -/
def checkRequires (props : FunProps) (ns : Env) (argvals : Env) : Option PyExn :=
  match props.requiresC with
  | none => none
  | some reqs => requiresLoop (envUpdate ns argvals) reqs

/-- `_check_returns(func, returnvalue)` (`decorators.py` lines 51-57). -/
def checkReturns (props : FunProps) (rv : PyVal) : Option PyExn :=
  match props.returntype with
  | none => none
  | some t => if typeTest t rv then none else some .returnTypeError

/-- `"__BACKTICK__"`. -/
def btSfx : String := "__BACKTICK__"

/-- `"__DOUBLEBACKTICK__"`. -/
def dbtSfx : String := "__DOUBLEBACKTICK__"

/-- One depth-1 pass over the cache: for each cache item, update the
(mutable) globals dict with the item's entries suffixed by `sfx`, then
evaluate; a falsy result raises `ExitConditionsError` and an evaluation
exception propagates unchanged.  Returns the mutated globals dict. -/
def ensuresOnePass (c : CondFn) (sfx : String) (cache : List Env) (env : Env) :
    Except PyExn Env :=
  match cache with
  | [] => .ok env
  | item :: rest =>
      let env1 := envUpdate env (envSuffix sfx item)
      match c env1 with
      | .error e => .error e
      | .ok v =>
          if v.truthy then ensuresOnePass c sfx rest env1
          else .error .exitConditionsError

/-- Inner loop of a depth-2 pass: for each cache item with index `j ≠ i`,
update the globals with the item suffixed by `iSfx` and evaluate. -/
def ensuresPairInner (c : CondFn) (iSfx : String) (items : List (ℕ × Env))
    (i : ℕ) (env : Env) : Except PyExn Env :=
  match items with
  | [] => .ok env
  | (j, item) :: rest =>
      if j = i then ensuresPairInner c iSfx rest i env
      else
        let env1 := envUpdate env (envSuffix iSfx item)
        match c env1 with
        | .error e => .error e
        | .ok v =>
            if v.truthy then ensuresPairInner c iSfx rest i env1
            else .error .exitConditionsError

/-- Outer loop of a depth-2 pass: for each cache item with index `i`,
update the globals with the item suffixed by `oSfx`, then run the inner
loop over all indices `j ≠ i` with suffix `iSfx`. -/
def ensuresPairOuter (c : CondFn) (oSfx iSfx : String) (itemsAll : List (ℕ × Env)) :
    List (ℕ × Env) → Env → Except PyExn Env
  | [], env => .ok env
  | (i, item) :: rest, env =>
      let env1 := envUpdate env (envSuffix oSfx item)
      match ensuresPairInner c iSfx itemsAll i env1 with
      | .error e => .error e
      | .ok env2 => ensuresPairOuter c oSfx iSfx itemsAll rest env2

/-- `list(enumerate(cache))`. -/
def enumerateCache (cache : List Env) : List (ℕ × Env) :=
  (List.range cache.length).zip cache

/-- The statement loop of `_check_ensures` (`decorators.py` lines
76-136), threading the mutable `limited_globals` dict through the
backtick-substitution passes exactly as the source mutates it. -/
def ensuresLoop (argvals : Env) (cache : List Env) :
    List (ℕ × CondFn × String) → Env → Except PyExn Unit
  | [], _ => .ok ()
  | (d, c, _) :: rest, env =>
      if d = 2 then
        let idx := enumerateCache cache
        match ensuresPairOuter c btSfx dbtSfx idx idx env with
        | .error e => .error e
        | .ok env1 =>
            let env1b := envUpdate env1 (envSuffix btSfx argvals)
            match ensuresPairOuter c "" dbtSfx idx idx env1b with
            | .error e => .error e
            | .ok env2 =>
                let env2b := envUpdate env2 (envSuffix dbtSfx argvals)
                match ensuresPairOuter c "" btSfx idx idx env2b with
                | .error e => .error e
                | .ok env3 => ensuresLoop argvals cache rest env3
      else if d = 1 then
        match ensuresOnePass c btSfx cache env with
        | .error e => .error e
        | .ok env1 =>
            let env1b := envUpdate env1 (envSuffix btSfx argvals)
            match ensuresOnePass c "" cache env1b with
            | .error e => .error e
            | .ok env2 => ensuresLoop argvals cache rest env2
      else
        match c env with
        | .error e => .error e
        | .ok v =>
            if v.truthy then ensuresLoop argvals cache rest env
            else .error .exitConditionsError

/-- `_check_ensures(func, returnvalue, argvals)` (`decorators.py` lines
59-136).  `ns` is the global `namespace` setting; `cache` is the
function's `exec_cache` before the call and the second component of the
result is the cache after the call.  Mirroring the source, when any
postcondition has backtick depth > 0 the merged
namespace/arguments/return dict is appended to the cache, and one item
is evicted from the front if the cache then exceeds `maxCache`, all
BEFORE the postcondition statements are evaluated.  `limitedGlobals` is
that merged dict. -/
def limitedGlobals (ns argvals : Env) (rv : PyVal) : Env :=
  envUpdate (envUpdate ns argvals) [("__RETURN__", rv)]

/-- `exec_cache.append(item)` followed by `if len(exec_cache) >
max_cache: exec_cache.pop(0)` (`decorators.py` lines 73-75). -/
def cachePush (cache : List Env) (item : Env) (maxCache : ℕ) : List Env :=
  let c := cache ++ [item]
  if c.length > maxCache then c.drop 1 else c

def checkEnsures (props : FunProps) (ns : Env) (rv : PyVal) (argvals : Env)
    (cache : List Env) (maxCache : ℕ) : Except PyExn Unit × List Env :=
  match props.ensuresC with
  | none => (.ok (), cache)
  | some ens =>
      let limited := limitedGlobals ns argvals rv
      let cache1 :=
        if ens.any (fun s => decide (s.1 > 0)) then cachePush cache limited maxCache
        else cache
      (ensuresLoop argvals cache1 ens limited, cache1)

/-- The wrapper `_decorated` (`decorators.py` lines 140-155): short
circuit when the effective `enabled` setting equals `False`, otherwise
check argument types, preconditions, run the function, check the return
type, and check postconditions.  `f` is the underlying function applied
to its bound arguments; `loc` is its `__function_settings__` dict;
`cache` is its `exec_cache`, threaded through. -/
def decorated (props : FunProps) (ns : Env) (loc : Option LocalSettings)
    (g : GlobalSettings) (f : Env → PyVal) (argvals : Env)
    (cache : List Env) : Except PyExn PyVal × List Env :=
  if settingEqBool ((Settings_get "enabled" loc g).getD (.sbool true)) false then
    (.ok (f argvals), cache)
  else
    match checkAccepts props argvals with
    | some e => (.error e, cache)
    | none =>
        match checkRequires props ns argvals with
        | some e => (.error e, cache)
        | none =>
            let rv := f argvals
            match checkReturns props rv with
            | some e => (.error e, cache)
            | none =>
                let mc := settingToNat ((Settings_get "max_cache" loc g).getD (.sint 2))
                match checkEnsures props ns rv argvals cache mc with
                | (.ok _, c1) => (.ok rv, c1)
                | (.error e, c1) => (.error e, c1)

/-! ### `TypeFactory` and the declaration decorators -/

/-- A built-in `Type` subclass, as the bare class object a user may pass
to `TypeFactory` or `accepts`.  The `Range` family, `Constant`, `Not`
and `Generic` have constructors with required parameters, so calling
them with no arguments raises `TypeError`. -/
inductive TypeClassTag where
  | numericC
  | extendedRealC
  | numberC
  | integerC
  | natural0C
  | natural1C
  | positive0C
  | positiveC
  | booleanC
  | nothingC
  | functionC
  | rangeC
  | rangeClosedOpenC
  | rangeOpenClosedC
  | rangeOpenC
  | constantC
  | notTC
  | genericC
deriving DecidableEq, Repr

/-- Whether the class's `__init__` can be called with no arguments
(read off each staged constructor: `Range.__init__(self, low, high)`,
`Constant.__init__(self, const)`, `Not.__init__(self, typ)` and
`Generic.__init__(self, typ)` all have required parameters). -/
def tagZeroArgConstructible : TypeClassTag → Bool
  | .rangeC => false
  | .rangeClosedOpenC => false
  | .rangeOpenClosedC => false
  | .rangeOpenC => false
  | .constantC => false
  | .notTC => false
  | .genericC => false
  | _ => true

/-- `v()` for a bare `Type` subclass: a fresh instance for the
zero-argument-constructible classes, and the `TypeError` Python raises
(missing required positional arguments) for a class whose `__init__`
requires parameters, such as `Range(low, high)`. -/
def instantiateTag : TypeClassTag → Except PyExn TypeV
  | .numericC => .ok .numeric
  | .extendedRealC => .ok .extendedReal
  | .numberC => .ok .number
  | .integerC => .ok .integer
  | .natural0C => .ok .natural0
  | .natural1C => .ok .natural1
  | .positive0C => .ok .positive0
  | .positiveC => .ok .positive
  | .booleanC => .ok .boolean
  | .nothingC => .ok .nothing
  | .functionC => .ok .function
  | .rangeC => .error .typeError
  | .rangeClosedOpenC => .error .typeError
  | .rangeOpenClosedC => .error .typeError
  | .rangeOpenC => .error .typeError
  | .constantC => .error .typeError
  | .notTC => .error .typeError
  | .genericC => .error .typeError

/-- A Python object as `TypeFactory` sees it: `None` is the value
`plainVal .vnone`; a `Type` instance; a bare `Type` subclass; some other
class object; or any other plain value. -/
inductive PyObject where
  | typeInst (t : TypeV)
  | typeCls (c : TypeClassTag)
  | otherCls (c : PyClassTag)
  | plainVal (v : PyVal)
deriving Repr

/-- `TypeFactory(v)` (`types/base.py` lines 14-34): `None` becomes
`Nothing()`; a `Type` instance is returned unchanged; a bare `Type`
subclass reaches `return v()`, which produces a fresh instance when the
class is zero-argument constructible and otherwise propagates the
`TypeError` of the instantiation; any other class is wrapped in
`Generic`; every other value raises `InvalidTypeError`. -/
def TypeFactory : PyObject → Except PyExn TypeV
  | .typeInst t => .ok t
  | .typeCls c => instantiateTag c
  | .otherCls c => .ok (.generic c)
  | .plainVal v => if v = .vnone then .ok .nothing else .error .invalidTypeError

/-- A function's signature metadata: its bindable parameter names (the
keys `inspect.getcallargs` produces) and the names of its variadic
positional and keyword slots, when present. -/
structure FuncSig where
  params : List String
  posargsName : Option String
  kwargsName : Option String

/-- `utils.get_func_kwargs_name(f)` (`utils.py` lines 75-83): the name
of the function's `**` parameter, or `None` when it has none.  The
signature metadata is explicit data in the model. -/
def get_func_kwargs_name (sig : FuncSig) : Option String := sig.kwargsName

/-- Modelled from the spec: `utils.get_func_posargs_name`, called by
`accepts` (`decorators.py` line 207) and exercised by the repository's
`tests/tests.py`, is missing from the staged `utils.py` (which ends at
`get_func_kwargs_name`).  Per the spec's parameter-metadata design
("detecting variadic slots"; "positional/keyword catch-alls get
synthesized container types") and the caller's comment ("Find the name
of the `*args` parameter (not necessarily `args`)"), it returns the name
of the function's variadic-positional parameter, or `None` when it has
none. -/
def get_func_posargs_name (sig : FuncSig) : Option String := sig.posargsName

/-- Store into a string-keyed argument-type dict (assignment to an
existing key; the callers guard with a containment check first). -/
def argtypesStore (ats : List (String × TypeV)) (k : String) (t : TypeV) :
    List (String × TypeV) :=
  match ats with
  | [] => []
  | (k1, t1) :: rest =>
      if k1 = k then (k1, t) :: rest else (k1, t1) :: argtypesStore rest k t

/-- The `@accepts` decorator (`decorators.py` lines 173-214) for a
function with signature metadata `sig`: each declared type goes through
`TypeFactory`, the declared types are bound to the parameter names
(`inspect.getcallargs`; an arity mismatch raises `ArgumentTypeError`),
the variadic keyword slot (if any, located with
`get_func_kwargs_name`) is overwritten with `KeywordArguments()`, the
variadic positional slot (if any, located with the spec-modelled
`get_func_posargs_name`) is overwritten with `PositionalArguments()`,
and setting the argument types twice raises `ValueError`.  Default
values for unbound parameters (which `getcallargs` fills in and the
source wraps in `Constant`) are outside the model. -/
def acceptsDecor (sig : FuncSig) (argtypeObjs : List PyObject)
    (props : FunProps) : Except PyExn FunProps :=
  match argtypeObjs.mapM TypeFactory with
  | .error e => .error e
  | .ok ts =>
      if ts.length ≠ sig.params.length then .error .argumentTypeError
      else
        let argtypes0 := sig.params.zip ts
        let argtypes1 :=
          match get_func_kwargs_name sig with
          | some k =>
              if (argtypes0.map (fun kv => kv.1)).contains k
              then argtypesStore argtypes0 k .keywordArguments
              else argtypes0
          | none => argtypes0
        let argtypes2 :=
          match get_func_posargs_name sig with
          | some k =>
              if (argtypes1.map (fun kv => kv.1)).contains k
              then argtypesStore argtypes1 k .positionalArguments
              else argtypes1
          | none => argtypes1
        if props.argtypes.isSome then .error .valueError
        else .ok { props with argtypes := some argtypes2 }

/-- The `@returns` decorator (`decorators.py` lines 216-233): the return
type goes through `TypeFactory` and setting it twice raises
`ValueError`. -/
def returnsDecor (rt : PyObject) (props : FunProps) : Except PyExn FunProps :=
  match TypeFactory rt with
  | .error e => .error e
  | .ok t =>
      if props.returntype.isSome then .error .valueError
      else .ok { props with returntype := some t }

/-! ### The condition compiler (`requires`/`ensures` string rewriting)

A condition string is modelled as a token list: maximal runs of text
containing no implication arrow become `frag` tokens, and each top-level
occurrence of `-->` and `<-->` becomes an `arr` or `biarr` token.  This
is faithful to the source's `str.split`-based processing for condition
strings whose arrows do not occur inside string literals: the source
checks for `<-->` before `-->`, so in the branch that splits on `-->`
every remaining arrow is a plain one.  An arrow that survives into the
rewritten text is not valid Python syntax, so the subsequent
`compile(condition, '', 'eval')` raises a `SyntaxError`; the model
performs that check explicitly. -/

/-- A token of a condition string. -/
inductive CTok where
  | frag (s : String)
  | arr
  | biarr
deriving DecidableEq, Repr

/-- The number of occurrences of a token in a condition (how many times
the corresponding arrow occurs in the condition string). -/
def countTok (t : CTok) : List CTok → ℕ
  | [] => 0
  | x :: xs => (if x = t then 1 else 0) + countTok t xs

/-- `str.split(sep)` at the token level: split a token list at every
occurrence of the token `t`. -/
def splitTok (t : CTok) : List CTok → List (List CTok)
  | [] => [[]]
  | x :: xs =>
      if x = t then [] :: splitTok t xs
      else
        match splitTok t xs with
        | [] => [[x]]
        | p :: ps => (x :: p) :: ps

/-- The compiled form of a condition after implication rewriting:
`plain c` is `c` unchanged; `implication a c` is the conditional
expression `(c) if (a) else True`; `biconditional a b` is
`((b) if (a) else True) and ((a) if (b) else True)`. -/
inductive CompiledCond where
  | plain (c : List CTok)
  | implication (ante cons : List CTok)
  | biconditional (a b : List CTok)
deriving DecidableEq, Repr

/-- The string processing of the `requires` decorator (`decorators.py`
lines 262-282) followed by `compile`: split on `<-->` when present
(more than one occurrence fails the `assert len == 2`), otherwise split
on `-->` when present, and finally compile the rewritten text (an arrow
remaining inside a rewritten part is a `SyntaxError`). -/
def requiresTransform (cond : List CTok) : Except PyExn CompiledCond :=
  if countTok CTok.biarr cond > 0 then
    match splitTok CTok.biarr cond with
    | [p0, p1] =>
        if countTok CTok.arr p0 + countTok CTok.arr p1 > 0 then .error .syntaxError
        else .ok (.biconditional p0 p1)
    | _ => .error .assertionError
  else if countTok CTok.arr cond > 0 then
    match splitTok CTok.arr cond with
    | [p0, p1] => .ok (.implication p0 p1)
    | _ => .error .assertionError
  else .ok (.plain cond)

/-- Left-to-right non-overlapping replacement on character lists, with a
fuel argument for structural termination (the fuel passed is always the
input length, which suffices for a non-empty pattern).  This is the
semantics of Python's `str.replace`. -/
def replaceCharsAux (pat new : List Char) : ℕ → List Char → List Char
  | 0, s => s
  | _ + 1, [] => []
  | fuel + 1, ch :: rest =>
      if pat ≠ [] ∧ pat.isPrefixOf (ch :: rest)
      then new ++ replaceCharsAux pat new fuel ((ch :: rest).drop pat.length)
      else ch :: replaceCharsAux pat new fuel rest

/-- Python `s.replace(pat, new)` for a non-empty pattern. -/
def strReplace (s pat new : String) : String :=
  ⟨replaceCharsAux pat.data new.data s.data.length s.data⟩

/-- Python `pat in s` (substring containment). -/
def strContains (s pat : String) : Bool :=
  s.data.tails.any (fun t => pat.data.isPrefixOf t)

/-- `condition.replace("return", "__RETURN__")` applied to each text
fragment of a token list. -/
def replaceReturnTok (cond : List CTok) : List CTok :=
  cond.map (fun t =>
    match t with
    | .frag s => .frag (strReplace s "return" "__RETURN__")
    | t1 => t1)

/-- Whether any text fragment of a compiled condition contains `pat`. -/
def compiledContains (pat : String) : CompiledCond → Bool
  | .plain c => c.any (fun t => match t with | .frag s => strContains s pat | _ => false)
  | .implication a c =>
      (a ++ c).any (fun t => match t with | .frag s => strContains s pat | _ => false)
  | .biconditional a b =>
      (a ++ b).any (fun t => match t with | .frag s => strContains s pat | _ => false)

/-- Replace a pattern in every text fragment of a compiled condition. -/
def compiledReplace (pat new : String) : CompiledCond → CompiledCond
  | .plain c => .plain (c.map (fun t =>
      match t with | .frag s => .frag (strReplace s pat new) | t1 => t1))
  | .implication a c => .implication
      (a.map (fun t => match t with | .frag s => .frag (strReplace s pat new) | t1 => t1))
      (c.map (fun t => match t with | .frag s => .frag (strReplace s pat new) | t1 => t1))
  | .biconditional a b => .biconditional
      (a.map (fun t => match t with | .frag s => .frag (strReplace s pat new) | t1 => t1))
      (b.map (fun t => match t with | .frag s => .frag (strReplace s pat new) | t1 => t1))

/-- The string processing of the `ensures` decorator (`decorators.py`
lines 315-348) followed by `compile`: rewrite `return`, split on `<-->`
(rejecting more than one occurrence, and asserting no `-->` remains in
the rewritten text), otherwise split on `-->` (rejecting more than one),
then determine the backtick depth (2 when some fragment contains two
consecutive backticks, 1 when some fragment contains one, else 0) and
rewrite backticks to the internal suffix markers. -/
def ensuresTransform (cond : List CTok) : Except PyExn (ℕ × CompiledCond) :=
  let e := replaceReturnTok cond
  let arrowStep : Except PyExn CompiledCond :=
    if countTok CTok.biarr e > 0 then
      match splitTok CTok.biarr e with
      | [p0, p1] =>
          if countTok CTok.arr p0 + countTok CTok.arr p1 > 0 then .error .assertionError
          else .ok (.biconditional p0 p1)
      | _ => .error .assertionError
    else if countTok CTok.arr e > 0 then
      match splitTok CTok.arr e with
      | [p0, p1] => .ok (.implication p0 p1)
      | _ => .error .assertionError
    else .ok (.plain e)
  match arrowStep with
  | .error e1 => .error e1
  | .ok cc =>
      if compiledContains "``" cc then
        .ok (2, compiledReplace "`" btSfx (compiledReplace "``" dbtSfx cc))
      else if compiledContains "`" cc then
        .ok (1, compiledReplace "`" btSfx cc)
      else .ok (0, cc)

/-- Evaluation of one condition part (an opaque Python expression over
the bound-argument namespace, with the environment already fixed). -/
abbrev PartEval := List CTok → Except PyExn PyVal

/-- The Python semantics of the rewritten conditional expression
`(c) if (a) else True`: evaluate the antecedent; when it is falsy the
whole expression is `True` without evaluating the consequent, otherwise
the expression is the consequent. -/
def evalImplication (ev : PartEval) (a c : List CTok) : Except PyExn PyVal :=
  match ev a with
  | .error e => .error e
  | .ok v => if v.truthy then ev c else .ok (.vbool true)

/-- The Python semantics of a compiled condition.  `and` short-circuits:
the left operand is returned when falsy, otherwise the right operand. -/
def evalCompiled (ev : PartEval) : CompiledCond → Except PyExn PyVal
  | .plain c => ev c
  | .implication a c => evalImplication ev a c
  | .biconditional a b =>
      match evalImplication ev a b with
      | .error e => .error e
      | .ok v => if v.truthy then evalImplication ev b a else .ok v

/-! ### The automated test generator (`paranoid/testfunctions.py`) -/

/-- `itertools.product(*lists)` with the leftmost list slowest, as a
list of argument tuples. -/
def cartProd : List (List PyVal) → List (List PyVal)
  | [] => [[]]
  | l :: ls => l.flatMap (fun x => (cartProd ls).map (fun t => x :: t))

/-- The test-case loop of `test_function`: run the decorated function on
each tuple; an `EntryConditionsError` skips the tuple, a
`TestCaseTimeoutError` skips it with a diagnostic, any other exception
propagates, and every other call counts as one executed test. -/
def runTestCases (call : List PyVal → Except PyExn PyVal) :
    List (List PyVal) → Except PyExn ℕ
  | [] => .ok 0
  | tc :: rest =>
      match call tc with
      | .ok _ =>
          match runTestCases call rest with
          | .error e => .error e
          | .ok n => .ok (n + 1)
      | .error .entryConditionsError => runTestCases call rest
      | .error .testCaseTimeoutError => runTestCases call rest
      | .error e => .error e

/-- Lookup of a declared argument type by name. -/
def argtypeLookup (ats : List (String × TypeV)) (k : String) : Option TypeV :=
  match ats with
  | [] => none
  | (k1, t) :: rest => if k1 = k then some t else argtypeLookup rest k

/-- `test_function(func)` (`testfunctions.py` lines 42-89) for a
function with declared argument types `ats` and no variadic keyword
slot, whose decorated call is `call`.  The generator lists are collected
in sorted argument-name order inside a `try` that catches only
`NoGeneratorError` (which makes `testcases` the empty list, reported as
zero tests); any other exception from generation propagates.  When
generation succeeds, `testcases` is an `itertools.product` object, which
is always truthy, so the warning branch is not taken even when the
product is empty. -/
def test_function (ats : List (String × TypeV))
    (call : List PyVal → Except PyExn PyVal) : Except PyExn ℕ :=
  let ks := sortStrings (ats.map (fun kv => kv.1))
  match ks.mapM (fun k => typeGenerate ((argtypeLookup ats k).getD .nothing)) with
  | .error .noGeneratorError => .ok 0
  | .error e => .error e
  | .ok lists => runTestCases call (cartProd lists)

/-! ### Concrete instances used by the theorems -/

/-- The property bag of `@accepts(Number) @returns(Number) def f(x): return x + 3`. -/
def addThreeProps : FunProps := ⟨some [("x", .number)], some .number, none, none⟩

/-- The underlying function `lambda x: x + 3` on its bound arguments. -/
def addThreeFun : Env → PyVal := fun env =>
  match envLookup env "x" with
  | some (.vint n) => .vint (n + 3)
  | _ => .vnone

/-- A compiled depth-1 postcondition `x` (backtick) ` != 5`: true unless
the backtick-substituted cache value of `x` equals `5`. -/
def neqFivePost : CondFn := fun e =>
  .ok (.vbool (decide (envLookup e ("x" ++ btSfx) ≠ some (.vint 5))))

/-- A function annotated only with the depth-1 postcondition above. -/
def neqFiveProps : FunProps := ⟨none, none, none, some [(1, neqFivePost, "x-prev != 5")]⟩

/-- A function with one precondition whose evaluation raises (`1/0`-style). -/
def raisingReqProps : FunProps :=
  ⟨none, none, some [(fun _ => .error .typeError, "1/0")], none⟩

/-- A function with one depth-0 postcondition whose evaluation raises a
`NameError`. -/
def raisingEnsProps : FunProps :=
  ⟨none, none, none, some [(0, fun _ => .error .nameError, "missing_name")]⟩

/-- A function declared to return `Boolean` whose body returns the int 5. -/
def badReturnProps : FunProps := ⟨none, some .boolean, none, none⟩

/-- The underlying function returning the int 5. -/
def returnFiveFun : Env → PyVal := fun _ => .vint 5

/-- A global settings state with the engine disabled. -/
def disabledGlobalSettings : GlobalSettings :=
  ⟨.sbool false, .sint 2, .sint 2, .sdict true⟩

/-! ## Theorems -/

/-- C1: the claim states that every value produced by `generate()` of a
built-in type constructed with valid parameters passes `test()`, in
particular for every `Range` variant with finite `low < high`.  The code
violates this: `Range(0, 1e-6)` has valid parameters (finite bounds,
`low < high`), yet its generator yields `low + EPSILON = 1e-5`, which
lies outside `[0, 1e-6]`, so `Range.test` raises an `AssertionError` on
a generated value. -/
theorem C1_range_generator_escapes_validator :
    rangeValidParams (.finite 0) (.finite (1/1000000)) = true
    ∧ typeGenerate (.range (.finite 0) (.finite (1/1000000)))
        = .ok [.vfloat (.finite 0), .vfloat (.finite (1/100000)),
               .vfloat (.finite (1/1000000)), .vfloat (.finite (-9/1000000)),
               .vfloat (.finite (1/4000000)), .vfloat (.finite (1/2000000)),
               .vfloat (.finite (3/4000000))]
    ∧ typeTest (.range (.finite 0) (.finite (1/1000000)))
        (.vfloat (.finite (1/100000))) = false := by
  refine ⟨?_, ?_, ?_⟩
  · norm_num [rangeValidParams, PyFloat.isnan, PyFloat.isinf, PyFloat.lt]
  · norm_num [typeGenerate, rangeGenerate, rangeEPSILON, PyFloat.isinf,
      PyFloat.add, PyFloat.sub, PyFloat.mul]
  · norm_num [typeTest, numberTest, PyVal.isNumericInstance, PyVal.toFloat,
      PyFloat.isfinite, PyFloat.le]

/-- C2: decorating an add-3 function of one plain parameter `x` (no
variadic slots) with `accepts(Number)` and `returns(Number)` succeeds;
the decorated call returns 7 on input 4, and raises `ArgumentTypeError`
on input `"hello"`.  Decoration goes through the full `accepts` path,
including the variadic-slot lookups (`get_func_kwargs_name` and the
spec-modelled `get_func_posargs_name`), both of which return `None`
here. -/
theorem C2_accepts_returns_add_three :
    acceptsDecor ⟨["x"], none, none⟩ [.typeCls .numberC] emptyProps
        = .ok ⟨some [("x", .number)], none, none, none⟩
  ∧ returnsDecor (.typeCls .numberC) ⟨some [("x", .number)], none, none, none⟩
        = .ok addThreeProps
  ∧ decorated addThreeProps [] none defaultGlobalSettings addThreeFun
        [("x", .vint 4)] [] = (.ok (.vint 7), [])
  ∧ decorated addThreeProps [] none defaultGlobalSettings addThreeFun
        [("x", .vstr "hello")] [] = (.error .argumentTypeError, []) := by
  refine ⟨rfl, rfl, by decide, by decide⟩

/-- C7: for finite `low < high`, `Range` accepts both endpoints,
`RangeClosedOpen` accepts `low` and rejects `high`, `RangeOpenClosed`
rejects `low` and accepts `high`, and `RangeOpen` rejects both. -/
theorem C7_range_endpoint_membership (l h : ℚ) (hl : l < h) :
    typeTest (.range (.finite l) (.finite h)) (.vfloat (.finite l)) = true
  ∧ typeTest (.range (.finite l) (.finite h)) (.vfloat (.finite h)) = true
  ∧ typeTest (.rangeClosedOpen (.finite l) (.finite h)) (.vfloat (.finite l)) = true
  ∧ typeTest (.rangeClosedOpen (.finite l) (.finite h)) (.vfloat (.finite h)) = false
  ∧ typeTest (.rangeOpenClosed (.finite l) (.finite h)) (.vfloat (.finite l)) = false
  ∧ typeTest (.rangeOpenClosed (.finite l) (.finite h)) (.vfloat (.finite h)) = true
  ∧ typeTest (.rangeOpen (.finite l) (.finite h)) (.vfloat (.finite l)) = false
  ∧ typeTest (.rangeOpen (.finite l) (.finite h)) (.vfloat (.finite h)) = false := by
  have hle : l ≤ h := le_of_lt hl
  have hne : l ≠ h := ne_of_lt hl
  refine ⟨?_, ?_, ?_, ?_, ?_, ?_, ?_, ?_⟩ <;>
    simp [typeTest, numberTest, PyVal.isNumericInstance, PyVal.toFloat,
      PyFloat.isfinite, PyFloat.le, PyFloat.eq, hle, hne, hne.symm]

/-- C7 witness at `low = 0`, `high = 1`. -/
theorem C7_range_endpoint_membership_witness :
    typeTest (.range (.finite 0) (.finite 1)) (.vfloat (.finite 0)) = true
  ∧ typeTest (.range (.finite 0) (.finite 1)) (.vfloat (.finite 1)) = true
  ∧ typeTest (.rangeClosedOpen (.finite 0) (.finite 1)) (.vfloat (.finite 0)) = true
  ∧ typeTest (.rangeClosedOpen (.finite 0) (.finite 1)) (.vfloat (.finite 1)) = false
  ∧ typeTest (.rangeOpenClosed (.finite 0) (.finite 1)) (.vfloat (.finite 0)) = false
  ∧ typeTest (.rangeOpenClosed (.finite 0) (.finite 1)) (.vfloat (.finite 1)) = true
  ∧ typeTest (.rangeOpen (.finite 0) (.finite 1)) (.vfloat (.finite 0)) = false
  ∧ typeTest (.rangeOpen (.finite 0) (.finite 1)) (.vfloat (.finite 1)) = false :=
  C7_range_endpoint_membership 0 1 (by norm_num)

/-- C8: the claim states that a function with an argument type that
cannot generate values is reported untested (count 0) without an
exception.  The code honours this only for types that raise
`NoGeneratorError` (such as `Function`); for `Not`, whose `generate`
body is `pass` and therefore returns `None`, the wrapper's
`list(...)` call raises a `TypeError` which `test_function` does not
catch, so the exception propagates instead of returning 0. -/
theorem C8_test_function_not_argtype :
    test_function [("x", .notT .numeric)] (fun _ => .ok .vnone) = .error .typeError
  ∧ test_function [("x", .function)] (fun _ => .ok .vnone) = .ok 0 := by
  refine ⟨by decide, by decide⟩

/-- C9 counterexample: the claim states that every bare subclass of
`Type` is returned as a fresh instance of that subclass, but
`TypeFactory(Range)` reaches `return v()` and `Range()` raises
`TypeError` (its `__init__` requires `low` and `high`), so the call
raises instead of returning an instance. -/
theorem C9_bare_range_class_raises :
    TypeFactory (.typeCls .rangeC) = .error .typeError := rfl

/-- C9 amended: `TypeFactory` classifies as claimed except on bare
subclasses whose constructors require parameters: `None` becomes a
`Nothing` instance (which accepts exactly `None`), a `Type` instance is
returned unchanged, a zero-argument-constructible bare `Type` subclass
is freshly instantiated, a bare subclass with required constructor
parameters (the `Range` family, `Constant`, `Not`, `Generic`) raises
`TypeError` from the instantiation, any other class is wrapped in
`Generic`, and every other value raises `InvalidTypeError`. -/
theorem C9_TypeFactory_classification_amended :
    TypeFactory (.plainVal .vnone) = .ok .nothing
  ∧ (∀ v : PyVal, typeTest .nothing v = true ↔ v = .vnone)
  ∧ (∀ t : TypeV, TypeFactory (.typeInst t) = .ok t)
  ∧ (∀ c : TypeClassTag, tagZeroArgConstructible c = true →
       ∃ t, instantiateTag c = .ok t ∧ TypeFactory (.typeCls c) = .ok t)
  ∧ (∀ c : TypeClassTag, tagZeroArgConstructible c = false →
       TypeFactory (.typeCls c) = .error .typeError)
  ∧ (∀ c : PyClassTag, TypeFactory (.otherCls c) = .ok (.generic c))
  ∧ (∀ v : PyVal, v ≠ .vnone →
       TypeFactory (.plainVal v) = .error .invalidTypeError) := by
  refine ⟨rfl, ?_, fun t => rfl, ?_, ?_, fun c => rfl, ?_⟩
  · intro v; simp [typeTest]
  · intro c h
    cases c <;> first
      | exact ⟨_, rfl, rfl⟩
      | simp [tagZeroArgConstructible] at h
  · intro c h
    cases c <;> first
      | rfl
      | simp [tagZeroArgConstructible] at h
  · intro v hv; simp [TypeFactory, hv]

/-- C9 witness: classification at concrete inputs, including a bare
parameterized subclass. -/
theorem C9_TypeFactory_classification_amended_witness :
    TypeFactory (.plainVal (.vstr "hello")) = .error .invalidTypeError
  ∧ TypeFactory (.typeCls .constantC) = .error .typeError
  ∧ typeTest .nothing .vnone = true :=
  ⟨C9_TypeFactory_classification_amended.2.2.2.2.2.2 (.vstr "hello") (by decide),
   C9_TypeFactory_classification_amended.2.2.2.2.1 .constantC rfl,
   (C9_TypeFactory_classification_amended.2.1 .vnone).mpr rfl⟩

/-- C10: `Settings._set` raises `NameError` for every unknown setting
name and `ValueError` for every value its validator rejects, and in both
error cases neither the global settings map nor the function-local map
changes (the returned state equals the input state).  Negative
`max_cache` values are rejected, as are values for `enabled` not equal
(under Python `==`) to `True` or `False`. -/
theorem C10_settings_set_error_behaviour (name : String) (v : SettingVal)
    (fn : Option LocalSettings) (g : GlobalSettings) :
    (settingNames.contains name = false →
       Settings_set name v fn g = ((g, fn), some .nameError))
  ∧ (settingNames.contains name = true → validateSetting name v = false →
       Settings_set name v fn g = ((g, fn), some .valueError))
  ∧ (∀ n : ℤ, n < 0 → validateSetting "max_cache" (.sint n) = false)
  ∧ (∀ s : String, validateSetting "enabled" (.sstr s) = false) := by
  refine ⟨?_, ?_, ?_, ?_⟩
  · intro hname
    have h1 : name ∉ settingNames := by simpa using hname
    simp [Settings_set, h1]
  · intro hname hval
    have h1 : name ∈ settingNames := by simpa using hname
    simp [Settings_set, h1, hval]
  · intro n hn; simp [validateSetting]; omega
  · intro s; simp [validateSetting, settingEqBool]

/-- C3 counterexample: the claim states the current call's bound values
are appended to the cache only AFTER all postconditions have been
evaluated.  Under that ordering, a first call (empty prior cache) could
never fail a depth-1 postcondition, since there would be no cache item
to substitute.  The code appends first: with an empty initial cache and
the single depth-1 postcondition `x-backtick != 5`, a call with `x = 5`
raises `ExitConditionsError` because the evaluation already sees the
current call in the cache. -/
theorem C3_current_call_visible_to_own_postcondition :
    checkEnsures neqFiveProps [] .vnone [("x", .vint 5)] [] 2
      = (.error .exitConditionsError, [[("x", .vint 5), ("__RETURN__", .vnone)]]) := by
  decide

/-- C3 amended: when some postcondition has temporal depth > 0, the
current call's merged namespace/arguments/return dict is appended to the
cache (with one front eviction if the bound is exceeded) BEFORE the
postconditions are evaluated, the evaluation runs against that updated
cache, and the cache length stays within the effective `max_cache` bound
whenever it respected the bound before the call. -/
theorem C3_cache_appended_before_postconditions
    (props : FunProps) (ns : Env) (rv : PyVal) (argvals : Env)
    (cache : List Env) (maxCache : ℕ) (ens : List (ℕ × CondFn × String))
    (hens : props.ensuresC = some ens)
    (hdepth : ens.any (fun s => decide (s.1 > 0)) = true) :
    checkEnsures props ns rv argvals cache maxCache
      = (ensuresLoop argvals (cachePush cache (limitedGlobals ns argvals rv) maxCache)
           ens (limitedGlobals ns argvals rv),
         cachePush cache (limitedGlobals ns argvals rv) maxCache)
  ∧ (1 ≤ maxCache →
       limitedGlobals ns argvals rv
         ∈ cachePush cache (limitedGlobals ns argvals rv) maxCache)
  ∧ (cache.length ≤ maxCache →
       (cachePush cache (limitedGlobals ns argvals rv) maxCache).length ≤ maxCache) := by
  refine ⟨by simp [checkEnsures, hens, hdepth], ?_, ?_⟩
  · intro hmax
    simp only [cachePush]
    split
    · next hlen =>
        cases cache with
        | nil => simp at hlen; omega
        | cons x rest => simp
    · next => simp
  · intro hle
    simp only [cachePush]
    split
    · next hlen =>
        simp only [List.length_drop, List.length_append, List.length_singleton] at hlen ⊢
        omega
    · next hlen =>
        simp only [List.length_append, List.length_singleton, gt_iff_lt, not_lt] at hlen ⊢
        omega

/-- C3 witness: a first call with `x = 3` under the depth-1
postcondition: the appended snapshot is in the resulting cache and the
bound holds. -/
theorem C3_cache_appended_before_postconditions_witness :
    limitedGlobals [] [("x", .vint 3)] (.vint 7)
        ∈ cachePush [] (limitedGlobals [] [("x", .vint 3)] (.vint 7)) 2
  ∧ (cachePush [] (limitedGlobals [] [("x", .vint 3)] (.vint 7)) 2).length ≤ 2 :=
  ⟨(C3_cache_appended_before_postconditions neqFiveProps [] (.vint 7) [("x", .vint 3)]
      [] 2 [(1, neqFivePost, "x-prev != 5")] rfl (by decide)).2.1 (by omega),
   (C3_cache_appended_before_postconditions neqFiveProps [] (.vint 7) [("x", .vint 3)]
      [] 2 [(1, neqFivePost, "x-prev != 5")] rfl (by decide)).2.2 (by simp)⟩

/-- Helper: when some precondition's evaluation raises, the
`_check_requires` loop reports `EntryConditionsError` (either an earlier
requirement already failed, or the erroring one is reached and its
exception is re-wrapped). -/
theorem requiresLoop_error_of_exn (full : Env) :
    ∀ reqs : List (CondFn × String),
      (∃ p ∈ reqs, ∃ e, p.1 full = Except.error e) →
      requiresLoop full reqs = some .entryConditionsError := by
  intro reqs
  induction reqs with
  | nil => intro h; simp at h
  | cons q rest ih =>
      intro h
      obtain ⟨qc, qt⟩ := q
      cases hq : qc full with
      | error e1 => simp [requiresLoop, hq]
      | ok v =>
          by_cases ht : v.truthy
          · have hrest : ∃ p ∈ rest, ∃ e, p.1 full = Except.error e := by
              obtain ⟨p, hp, e, he⟩ := h
              rcases List.mem_cons.mp hp with h1 | h1
              · subst h1
                have he2 : qc full = Except.error e := he
                rw [hq] at he2
                simp at he2
              · exact ⟨p, h1, e, he⟩
            simp [requiresLoop, hq, ht, ih hrest]
          · simp [requiresLoop, hq, ht]

/-- Helper: a depth-0 postcondition whose evaluation raises, preceded
only by passing depth-0 postconditions, makes the `_check_ensures`
statement loop propagate that exception unchanged. -/
theorem ensuresLoop_error_after_depth0 (argvals : Env) (cache : List Env) (env : Env)
    (c : CondFn) (t : String) (rest : List (ℕ × CondFn × String)) (e : PyExn)
    (hc : c env = .error e) :
    ∀ pre : List (ℕ × CondFn × String),
      (∀ q ∈ pre, q.1 = 0 ∧ ∃ v, q.2.1 env = .ok v ∧ v.truthy = true) →
      ensuresLoop argvals cache (pre ++ (0, c, t) :: rest) env = .error e := by
  intro pre
  induction pre with
  | nil => intro _; simp [ensuresLoop, hc]
  | cons q pre1 ih =>
      intro hpre
      obtain ⟨d, qc, qt⟩ := q
      obtain ⟨hd, v, hv, htr⟩ := hpre (d, qc, qt) (List.mem_cons_self _ _)
      have hd2 : d = 0 := hd
      subst hd2
      have hv2 : qc env = Except.ok v := hv
      have hstep :
          ensuresLoop argvals cache ((0, qc, qt) :: (pre1 ++ (0, c, t) :: rest)) env
            = ensuresLoop argvals cache (pre1 ++ (0, c, t) :: rest) env := by
        simp [ensuresLoop, hv2, htr]
      rw [List.cons_append, hstep]
      exact ih (fun q hq => hpre q (List.mem_cons_of_mem _ hq))

/-- C4: any exception raised while evaluating a precondition expression
surfaces as `EntryConditionsError` (an evaluation that itself raises
`EntryConditionsError` is re-raised as that same type), while an
exception raised while evaluating a (depth-0) postcondition expression
propagates to the caller unwrapped — the error value returned is the
very exception the evaluation raised. -/
theorem C4_precondition_wrapped_postcondition_raw
    (props : FunProps) (ns : Env) (rv : PyVal) (argvals : Env)
    (cache : List Env) (maxCache : ℕ) :
    (∀ reqs, props.requiresC = some reqs →
       (∃ p ∈ reqs, ∃ e, p.1 (envUpdate ns argvals) = Except.error e) →
       checkRequires props ns argvals = some .entryConditionsError)
  ∧ (∀ pre c t rest e,
       props.ensuresC = some (pre ++ (0, c, t) :: rest) →
       (∀ q ∈ pre, q.1 = 0 ∧ ∃ v, q.2.1 (limitedGlobals ns argvals rv) = .ok v
            ∧ v.truthy = true) →
       c (limitedGlobals ns argvals rv) = .error e →
       (checkEnsures props ns rv argvals cache maxCache).1 = .error e) := by
  constructor
  · intro reqs h hex
    simp only [checkRequires, h]
    exact requiresLoop_error_of_exn _ reqs hex
  · intro pre c t rest e hens hpre hc
    simp only [checkEnsures, hens]
    exact ensuresLoop_error_after_depth0 argvals _ _ c t rest e hc pre hpre

/-- C4 witness: a precondition raising `TypeError` yields
`EntryConditionsError`; a postcondition raising `NameError` propagates
the `NameError` itself. -/
theorem C4_precondition_wrapped_postcondition_raw_witness :
    checkRequires raisingReqProps [] [] = some .entryConditionsError
  ∧ (checkEnsures raisingEnsProps [] .vnone [] [] 2).1 = .error .nameError := by
  constructor
  · exact (C4_precondition_wrapped_postcondition_raw raisingReqProps [] .vnone [] [] 2).1
      [(fun _ => .error .typeError, "1/0")] rfl
      ⟨(fun _ => .error .typeError, "1/0"), List.mem_singleton.mpr rfl, .typeError, rfl⟩
  · exact (C4_precondition_wrapped_postcondition_raw raisingEnsProps [] .vnone [] [] 2).2
      [] (fun _ => .error .nameError) "missing_name" [] .nameError rfl
      (fun q hq => absurd hq (List.not_mem_nil q)) rfl

/-- Helper: splitting on a token that does not occur returns the whole
list as the single part. -/
theorem splitTok_of_not_mem {t : CTok} :
    ∀ {l : List CTok}, t ∉ l → splitTok t l = [l] := by
  intro l h
  induction l with
  | nil => rfl
  | cons x xs ih =>
      have hx : ¬(x = t) := fun hh => h (hh ▸ List.mem_cons_self x xs)
      have hxs := ih (fun hm => h (List.mem_cons_of_mem _ hm))
      simp [splitTok, hx, hxs]

/-- Helper: a split is never the empty list of parts. -/
theorem splitTok_ne_nil (t : CTok) : ∀ l : List CTok, splitTok t l ≠ [] := by
  intro l
  induction l with
  | nil => simp [splitTok]
  | cons x xs ih =>
      by_cases hx : x = t
      · simp [splitTok, hx]
      · cases hs : splitTok t xs with
        | nil => exact absurd hs ih
        | cons p ps => simp [splitTok, hx, hs]

/-- Helper: the number of parts is the occurrence count plus one. -/
theorem splitTok_length (t : CTok) :
    ∀ l : List CTok, (splitTok t l).length = countTok t l + 1 := by
  intro l
  induction l with
  | nil => rfl
  | cons x xs ih =>
      by_cases hx : x = t
      · simp [splitTok, countTok, hx, ih]; omega
      · cases hs : splitTok t xs with
        | nil => exact absurd hs (splitTok_ne_nil t xs)
        | cons p ps =>
            rw [hs] at ih
            simp [splitTok, countTok, hx, hs]
            simp at ih
            omega

/-- Helper: splitting at the unique occurrence of `t` yields the part
before it followed by the split of the part after it. -/
theorem splitTok_append_of_not_mem {t : CTok} {a : List CTok} (ha : t ∉ a)
    (c : List CTok) : splitTok t (a ++ t :: c) = a :: splitTok t c := by
  induction a with
  | nil => simp [splitTok]
  | cons x xs ih =>
      have hx : ¬(x = t) := fun hh => ha (hh ▸ List.mem_cons_self x xs)
      have hxs := ih (fun hm => ha (List.mem_cons_of_mem _ hm))
      cases hs : splitTok t (xs ++ t :: c) with
      | nil => exact absurd hs (splitTok_ne_nil t _)
      | cons p ps =>
          rw [hs] at hxs
          simp at hxs
          simp [splitTok, hx, hs, hxs]

/-- Helper: a token not in the list has count zero. -/
theorem countTok_eq_zero_of_not_mem {t : CTok} :
    ∀ {l : List CTok}, t ∉ l → countTok t l = 0 := by
  intro l h
  induction l with
  | nil => rfl
  | cons x xs ih =>
      have hx : ¬(x = t) := fun hh => h (hh ▸ List.mem_cons_self x xs)
      simp [countTok, hx, ih (fun hm => h (List.mem_cons_of_mem _ hm))]

/-- Helper: counts add over list concatenation. -/
theorem countTok_append (t : CTok) :
    ∀ a b : List CTok, countTok t (a ++ b) = countTok t a + countTok t b := by
  intro a b
  induction a with
  | nil => simp [countTok]
  | cons x xs ih => simp [countTok, ih]; omega

/-- Helper: occurrences of a second token distribute over the parts of a
split on a different token. -/
theorem countTok_parts_sum {t u : CTok} (hne : u ≠ t) :
    ∀ l : List CTok, ((splitTok t l).map (countTok u)).sum = countTok u l := by
  intro l
  induction l with
  | nil => simp [splitTok, countTok]
  | cons x xs ih =>
      by_cases hx : x = t
      · subst hx
        have htu : ¬(x = u) := fun hh => hne hh.symm
        simp [splitTok, countTok, htu, ih]
      · cases hs : splitTok t xs with
        | nil => exact absurd hs (splitTok_ne_nil t xs)
        | cons p ps =>
            rw [hs] at ih
            simp at ih
            simp [splitTok, hx, hs, countTok]
            omega

/-- Helper: the `return`-rewriting step only changes text fragments, so
arrow-token counts are unchanged. -/
theorem countTok_replaceReturn {t : CTok} (ht : ∀ s, t ≠ CTok.frag s) :
    ∀ l : List CTok, countTok t (replaceReturnTok l) = countTok t l := by
  intro l
  induction l with
  | nil => rfl
  | cons x xs ih =>
      cases x with
      | frag s =>
          have h1 : ¬(CTok.frag (strReplace s "return" "__RETURN__") = t) :=
            fun hh => ht _ hh.symm
          have h2 : ¬(CTok.frag s = t) := fun hh => ht _ hh.symm
          simp [replaceReturnTok, countTok, h1, h2]
          simp [replaceReturnTok] at ih
          exact ih
      | arr =>
          simp [replaceReturnTok, countTok]
          simp [replaceReturnTok] at ih
          omega
      | biarr =>
          simp [replaceReturnTok, countTok]
          simp [replaceReturnTok] at ih
          omega

/-- Helper: with two or more implication arrows in a `requires`
condition, decoration fails hard (the `assert len == 2` for repeated
occurrences of one operator, or, for one `<-->` mixed with `-->`, the
`compile` of the rewritten text). -/
theorem requiresTransform_two_arrows_error :
    ∀ {l : List CTok}, 2 ≤ countTok CTok.arr l + countTok CTok.biarr l →
    ∃ e, requiresTransform l = .error e := by
  intro l h
  by_cases hb : countTok CTok.biarr l > 0
  · rcases Nat.lt_or_ge (countTok CTok.biarr l) 2 with hb2 | hb2
    · have hb1 : countTok CTok.biarr l = 1 := by omega
      have hlen : (splitTok CTok.biarr l).length = 2 := by
        rw [splitTok_length, hb1]
      rcases hs : splitTok CTok.biarr l with _ | ⟨p0, _ | ⟨p1, ps⟩⟩
      · exact absurd hs (splitTok_ne_nil _ _)
      · rw [hs] at hlen; simp at hlen
      · rw [hs] at hlen
        simp at hlen
        subst hlen
        have hsum : countTok CTok.arr p0 + countTok CTok.arr p1 > 0 := by
          have hps := countTok_parts_sum (t := CTok.biarr) (u := CTok.arr)
            (by decide) l
          rw [hs] at hps
          simp at hps
          omega
        refine ⟨.syntaxError, ?_⟩
        simp only [requiresTransform]
        rw [if_pos hb, hs]
        simp [hsum]
    · have hlen : 3 ≤ (splitTok CTok.biarr l).length := by
        rw [splitTok_length]; omega
      rcases hs : splitTok CTok.biarr l with _ | ⟨p0, _ | ⟨p1, _ | ⟨p2, ps⟩⟩⟩
      · exact absurd hs (splitTok_ne_nil _ _)
      · rw [hs] at hlen; simp at hlen
      · rw [hs] at hlen; simp at hlen
      · refine ⟨.assertionError, ?_⟩
        simp only [requiresTransform]
        rw [if_pos hb, hs]
  · have ha2 : 2 ≤ countTok CTok.arr l := by omega
    have hlen : 3 ≤ (splitTok CTok.arr l).length := by
      rw [splitTok_length]; omega
    rcases hs : splitTok CTok.arr l with _ | ⟨p0, _ | ⟨p1, _ | ⟨p2, ps⟩⟩⟩
    · exact absurd hs (splitTok_ne_nil _ _)
    · rw [hs] at hlen; simp at hlen
    · rw [hs] at hlen; simp at hlen
    · refine ⟨.assertionError, ?_⟩
      have harr : countTok CTok.arr l > 0 := by omega
      simp only [requiresTransform]
      rw [if_neg hb, if_pos harr, hs]

/-- Helper: the same hard failure for an `ensures` condition (here the
mixed case is caught by the decorator's own `assert "-->" not in e`). -/
theorem ensuresTransform_two_arrows_error :
    ∀ {l : List CTok}, 2 ≤ countTok CTok.arr l + countTok CTok.biarr l →
    ∃ e, ensuresTransform l = .error e := by
  intro l h
  have hca : countTok CTok.arr (replaceReturnTok l) = countTok CTok.arr l :=
    countTok_replaceReturn (by intro s; simp) l
  have hcb : countTok CTok.biarr (replaceReturnTok l) = countTok CTok.biarr l :=
    countTok_replaceReturn (by intro s; simp) l
  by_cases hb : countTok CTok.biarr (replaceReturnTok l) > 0
  · rcases Nat.lt_or_ge (countTok CTok.biarr l) 2 with hb2 | hb2
    · have hb1 : countTok CTok.biarr (replaceReturnTok l) = 1 := by omega
      have hlen : (splitTok CTok.biarr (replaceReturnTok l)).length = 2 := by
        rw [splitTok_length, hb1]
      rcases hs : splitTok CTok.biarr (replaceReturnTok l) with _ | ⟨p0, _ | ⟨p1, ps⟩⟩
      · exact absurd hs (splitTok_ne_nil _ _)
      · rw [hs] at hlen; simp at hlen
      · rw [hs] at hlen
        simp at hlen
        subst hlen
        have hsum : countTok CTok.arr p0 + countTok CTok.arr p1 > 0 := by
          have hps := countTok_parts_sum (t := CTok.biarr) (u := CTok.arr)
            (by decide) (replaceReturnTok l)
          rw [hs] at hps
          simp at hps
          omega
        refine ⟨.assertionError, ?_⟩
        simp only [ensuresTransform]
        rw [if_pos hb, hs]
        simp [hsum]
    · have hlen : 3 ≤ (splitTok CTok.biarr (replaceReturnTok l)).length := by
        rw [splitTok_length]; omega
      rcases hs : splitTok CTok.biarr (replaceReturnTok l) with
        _ | ⟨p0, _ | ⟨p1, _ | ⟨p2, ps⟩⟩⟩
      · exact absurd hs (splitTok_ne_nil _ _)
      · rw [hs] at hlen; simp at hlen
      · rw [hs] at hlen; simp at hlen
      · refine ⟨.assertionError, ?_⟩
        simp only [ensuresTransform]
        rw [if_pos hb, hs]
  · have ha2 : 2 ≤ countTok CTok.arr (replaceReturnTok l) := by omega
    have hlen : 3 ≤ (splitTok CTok.arr (replaceReturnTok l)).length := by
      rw [splitTok_length]; omega
    rcases hs : splitTok CTok.arr (replaceReturnTok l) with
      _ | ⟨p0, _ | ⟨p1, _ | ⟨p2, ps⟩⟩⟩
    · exact absurd hs (splitTok_ne_nil _ _)
    · rw [hs] at hlen; simp at hlen
    · rw [hs] at hlen; simp at hlen
    · refine ⟨.assertionError, ?_⟩
      have harr : countTok CTok.arr (replaceReturnTok l) > 0 := by omega
      simp only [ensuresTransform]
      rw [if_neg hb, if_pos harr, hs]

/-- C5: a single top-level `-->` is rewritten to a conditional that is
`True` whenever the antecedent is falsy and is the consequent otherwise;
a single top-level `<-->` is rewritten to the conjunction of both
implication directions; and a condition with more than one arrow
occurrence is a hard error at decoration time, for both `requires` and
`ensures`. -/
theorem C5_implication_rewriting :
    (∀ a c : List CTok, CTok.arr ∉ a → CTok.biarr ∉ a → CTok.arr ∉ c → CTok.biarr ∉ c →
       requiresTransform (a ++ CTok.arr :: c) = .ok (.implication a c)
       ∧ requiresTransform (a ++ CTok.biarr :: c) = .ok (.biconditional a c))
  ∧ (∀ (ev : PartEval) (a c : List CTok) (v : PyVal), ev a = .ok v →
       (v.truthy = false → evalCompiled ev (.implication a c) = .ok (.vbool true))
       ∧ (v.truthy = true → evalCompiled ev (.implication a c) = ev c))
  ∧ (∀ (ev : PartEval) (a b : List CTok) (v1 v2 : PyVal),
       evalImplication ev a b = .ok v1 → evalImplication ev b a = .ok v2 →
       evalCompiled ev (.biconditional a b) = .ok (if v1.truthy then v2 else v1)
       ∧ (if v1.truthy then v2 else v1).truthy = (v1.truthy && v2.truthy))
  ∧ (∀ l : List CTok, 2 ≤ countTok CTok.arr l + countTok CTok.biarr l →
       (∃ e, requiresTransform l = .error e) ∧ (∃ e, ensuresTransform l = .error e))
  ∧ (∀ a c : List CTok, CTok.arr ∉ a → CTok.biarr ∉ a → CTok.arr ∉ c → CTok.biarr ∉ c →
       replaceReturnTok a = a → replaceReturnTok c = c →
       (compiledContains "``" (.implication a c) = false →
        compiledContains "`" (.implication a c) = false →
        ensuresTransform (a ++ CTok.arr :: c) = .ok (0, .implication a c))
       ∧ (compiledContains "``" (.biconditional a c) = false →
          compiledContains "`" (.biconditional a c) = false →
          ensuresTransform (a ++ CTok.biarr :: c) = .ok (0, .biconditional a c))) := by
  refine ⟨?_, ?_, ?_, ?_, ?_⟩
  · intro a c ha hba hc hbc
    constructor
    · have hb0 : countTok CTok.biarr (a ++ CTok.arr :: c) = 0 := by
        rw [countTok_append]
        simp [countTok, countTok_eq_zero_of_not_mem hba,
          countTok_eq_zero_of_not_mem hbc]
      have ha1 : countTok CTok.arr (a ++ CTok.arr :: c) > 0 := by
        rw [countTok_append]; simp [countTok]
      simp only [requiresTransform]
      rw [if_neg (by omega), if_pos ha1, splitTok_append_of_not_mem ha c,
        splitTok_of_not_mem hc]
    · have hb1 : countTok CTok.biarr (a ++ CTok.biarr :: c) > 0 := by
        rw [countTok_append]; simp [countTok]
      have ha0p : countTok CTok.arr a = 0 := countTok_eq_zero_of_not_mem ha
      have hc0p : countTok CTok.arr c = 0 := countTok_eq_zero_of_not_mem hc
      simp only [requiresTransform]
      rw [if_pos hb1, splitTok_append_of_not_mem hba c, splitTok_of_not_mem hbc]
      simp [ha0p, hc0p]
  · intro ev a c v hv
    constructor
    · intro ht; simp [evalCompiled, evalImplication, hv, ht]
    · intro ht; simp [evalCompiled, evalImplication, hv, ht]
  · intro ev a b v1 v2 h1 h2
    constructor
    · by_cases htr : v1.truthy = true <;>
        simp [evalCompiled, h1, h2, htr]
    · by_cases htr : v1.truthy = true <;> simp [htr]
  · intro l h
    exact ⟨requiresTransform_two_arrows_error h, ensuresTransform_two_arrows_error h⟩
  · intro a c ha hba hc hbc hra hrc
    have hrepl : replaceReturnTok (a ++ CTok.arr :: c) = a ++ CTok.arr :: c := by
      simp only [replaceReturnTok] at hra hrc ⊢
      simp [hra, hrc]
    have hreplb : replaceReturnTok (a ++ CTok.biarr :: c) = a ++ CTok.biarr :: c := by
      simp only [replaceReturnTok] at hra hrc ⊢
      simp [hra, hrc]
    constructor
    · intro hb2 hb1
      have hb0 : countTok CTok.biarr (a ++ CTok.arr :: c) = 0 := by
        rw [countTok_append]
        simp [countTok, countTok_eq_zero_of_not_mem hba,
          countTok_eq_zero_of_not_mem hbc]
      have ha1 : countTok CTok.arr (a ++ CTok.arr :: c) > 0 := by
        rw [countTok_append]; simp [countTok]
      simp only [ensuresTransform, hrepl]
      rw [if_neg (by omega), if_pos ha1, splitTok_append_of_not_mem ha c,
        splitTok_of_not_mem hc]
      simp [hb2, hb1]
    · intro hb2 hb1
      have hbpos : countTok CTok.biarr (a ++ CTok.biarr :: c) > 0 := by
        rw [countTok_append]; simp [countTok]
      have ha0p : countTok CTok.arr a = 0 := countTok_eq_zero_of_not_mem ha
      have hc0p : countTok CTok.arr c = 0 := countTok_eq_zero_of_not_mem hc
      simp only [ensuresTransform, hreplb]
      rw [if_pos hbpos, splitTok_append_of_not_mem hba c, splitTok_of_not_mem hbc]
      simp [ha0p, hc0p, hb2, hb1]

/-- C5 witness: a concrete single-implication condition compiles to the
vacuous-truth conditional (evaluating to `True` under a falsy
antecedent), and a double-implication condition is rejected. -/
theorem C5_implication_rewriting_witness :
    requiresTransform [CTok.frag "x >= 0", CTok.arr, CTok.frag "y >= 0"]
      = .ok (.implication [CTok.frag "x >= 0"] [CTok.frag "y >= 0"])
  ∧ evalCompiled (fun _ => .ok (.vbool false))
      (.implication [CTok.frag "x >= 0"] [CTok.frag "y >= 0"]) = .ok (.vbool true)
  ∧ (∃ e, requiresTransform
      [CTok.frag "a", CTok.arr, CTok.frag "b", CTok.arr, CTok.frag "d"]
        = .error e) := by
  refine ⟨?_, ?_, ?_⟩
  · exact (C5_implication_rewriting.1 [CTok.frag "x >= 0"] [CTok.frag "y >= 0"]
      (by decide) (by decide) (by decide) (by decide)).1
  · exact (C5_implication_rewriting.2.1 (fun _ => .ok (.vbool false))
      [CTok.frag "x >= 0"] [CTok.frag "y >= 0"] (.vbool false) rfl).1 rfl
  · exact (C5_implication_rewriting.2.2.2.1
      [CTok.frag "a", CTok.arr, CTok.frag "b", CTok.arr, CTok.frag "d"]
      (by decide)).1

/-- C6: when the effective `enabled` setting compares equal to `False`,
the wrapper returns exactly the underlying function's result with no
argument-type, precondition, return-type, or postcondition check and no
cache change, for every property bag (including ones whose checks would
fail); when it does not, each declared check is enforced in pipeline
order. -/
theorem C6_disabled_bypasses_all_checks
    (props : FunProps) (ns : Env) (loc : Option LocalSettings) (g : GlobalSettings)
    (f : Env → PyVal) (argvals : Env) (cache : List Env) :
    (settingEqBool ((Settings_get "enabled" loc g).getD (.sbool true)) false = true →
       decorated props ns loc g f argvals cache = (.ok (f argvals), cache))
  ∧ (settingEqBool ((Settings_get "enabled" loc g).getD (.sbool true)) false = false →
       (∀ e, checkAccepts props argvals = some e →
          decorated props ns loc g f argvals cache = (.error e, cache))
     ∧ (checkAccepts props argvals = none →
          ∀ e, checkRequires props ns argvals = some e →
          decorated props ns loc g f argvals cache = (.error e, cache))
     ∧ (checkAccepts props argvals = none → checkRequires props ns argvals = none →
          ∀ e, checkReturns props (f argvals) = some e →
          decorated props ns loc g f argvals cache = (.error e, cache))
     ∧ (checkAccepts props argvals = none → checkRequires props ns argvals = none →
          checkReturns props (f argvals) = none →
          ∀ e c1, checkEnsures props ns (f argvals) argvals cache
              (settingToNat ((Settings_get "max_cache" loc g).getD (.sint 2)))
              = (.error e, c1) →
          decorated props ns loc g f argvals cache = (.error e, c1))
     ∧ (checkAccepts props argvals = none → checkRequires props ns argvals = none →
          checkReturns props (f argvals) = none →
          ∀ u c1, checkEnsures props ns (f argvals) argvals cache
              (settingToNat ((Settings_get "max_cache" loc g).getD (.sint 2)))
              = (.ok u, c1) →
          decorated props ns loc g f argvals cache = (.ok (f argvals), c1))) := by
  constructor
  · intro h; simp [decorated, h]
  · intro h
    refine ⟨?_, ?_, ?_, ?_, ?_⟩
    · intro e he; simp [decorated, h, he]
    · intro ha e he; simp [decorated, h, ha, he]
    · intro ha hr e he; simp [decorated, h, ha, hr, he]
    · intro ha hr hret e c1 he; simp [decorated, h, ha, hr, hret, he]
    · intro ha hr hret u c1 he; simp [decorated, h, ha, hr, hret, he]

/-- C6 witness: a function whose declared `Boolean` return contract
would fail executes without raising while the engine is disabled, and
raises `ReturnTypeError` with default (enabled) settings. -/
theorem C6_disabled_bypasses_all_checks_witness :
    decorated badReturnProps [] none disabledGlobalSettings returnFiveFun [] []
      = (.ok (.vint 5), [])
  ∧ decorated badReturnProps [] none defaultGlobalSettings returnFiveFun [] []
      = (.error .returnTypeError, []) := by
  constructor
  · exact (C6_disabled_bypasses_all_checks badReturnProps [] none
      disabledGlobalSettings returnFiveFun [] []).1 (by decide)
  · exact (((C6_disabled_bypasses_all_checks badReturnProps [] none
      defaultGlobalSettings returnFiveFun [] []).2 (by decide)).2.2.1
      rfl rfl .returnTypeError (by decide))

/-- C10 witness: an unknown name and a negative `max_cache`. -/
theorem C10_settings_set_error_behaviour_witness :
    Settings_set "bogus" (.sint 1) none defaultGlobalSettings
        = ((defaultGlobalSettings, none), some .nameError)
  ∧ Settings_set "max_cache" (.sint (-5)) none defaultGlobalSettings
        = ((defaultGlobalSettings, none), some .valueError) :=
  ⟨(C10_settings_set_error_behaviour "bogus" (.sint 1) none defaultGlobalSettings).1
      (by decide),
   (C10_settings_set_error_behaviour "max_cache" (.sint (-5)) none
      defaultGlobalSettings).2.1 (by decide) (by decide)⟩
